import Mathlib

/-!
Verification of the graph version & activation lifecycle manager of the
AutoGPT platform backend, as implemented by the router
`backend/server/routers/v1.py` (`do_create_graph`, `update_graph`,
`set_graph_active_version`).

The store (`graph_db`) and the lifecycle hooks (`on_graph_activate`,
`on_graph_deactivate`) are external collaborators whose code is not part of
the router; they are modelled from their interface contracts in the spec.
The router logic itself is translated statement by statement from the source.

Hooks and the store compare-and-swap may fail; success/failure is supplied by
oracles (`ao` for the activation hook, `casOk` for the compare-and-swap), and
every hook invocation is recorded in an event trace so that ordering claims
can be stated.
-/

namespace AutoGPT

/-- A graph document as persisted by the store: stable `id` across versions,
integer `version`, the `is_template` flag and the `is_active` flag
(node/edge payload is irrelevant to the lifecycle claims and omitted). -/
structure Graph where
  id : String
  version : Nat
  is_template : Bool
  is_active : Bool
deriving DecidableEq, Repr

/-- Observable events of one operation: invocations of the activation hook,
of the deactivation hook, and of the store's set-active pointer update. -/
inductive Event where
  | activate (gid : String) (version : Nat)
  | deactivate (gid : String) (version : Nat)
  | setActive (gid : String) (version : Nat)
deriving DecidableEq, Repr

/-- Errors surfaced by the routes: `http s` is an `HTTPException` with status
code `s`; `conflict` is the store's `ConflictError` on a failed
compare-and-swap; `activationFailed` is an `ActivationError` raised by the
activation hook. -/
inductive Err where
  | http (status : Nat)
  | conflict
  | activationFailed
deriving DecidableEq, Repr

/-- Outcome of one route operation: returned value or error, the store after
the operation, and the trace of hook/store events in invocation order. -/
structure OpResult (α : Type) where
  result : Except Err α
  store : List Graph
  trace : List Event
deriving Repr

/-- `true` iff the operation succeeded. -/
def resultOk {α : Type} : Except Err α → Bool
  | Except.ok _ => true
  | Except.error _ => false

namespace graph_db

/-- Modelled from the spec: `GraphStore.get_versions(graph_id)` returns all
persisted versions of `graph_id` (`graph_db.get_graph_all_versions`). -/
def get_graph_all_versions (store : List Graph) (gid : String) : List Graph :=
  store.filter (fun g => g.id == gid)

/-- Modelled from the spec: `GraphStore.create(graph)` persists the graph
document as given and returns it (`graph_db.create_graph`). -/
def create_graph (store : List Graph) (g : Graph) : List Graph × Graph :=
  (store ++ [g], g)

/-- Modelled from the spec: `GraphStore.set_active(graph_id, version)` makes
`version` the single active version of `graph_id`, clearing the `is_active`
flag of every other version of that graph
(`graph_db.set_graph_active_version`; the comment at the call sites reads
"Ensure new version is the only active version"). A compare-and-swap failure
(`ConflictError`) leaves the store unchanged; whether it fails is decided by
the caller-supplied `casOk` oracle at the call site. -/
def set_graph_active_version (store : List Graph) (gid : String) (v : Nat) :
    List Graph :=
  store.map (fun g =>
    if g.id == gid then { g with is_active := g.version == v } else g)

/-- Modelled from the spec: `graph_db.get_graph(graph_id, version?,
template?)` resolves the requested version of `graph_id` (the active version
when no version is given), restricted to template documents when
`tmpl = true` and to non-template documents otherwise. -/
def get_graph (store : List Graph) (gid : String) (v : Option Nat)
    (tmpl : Bool) : Option Graph :=
  store.find? (fun g =>
    g.id == gid && g.is_template == tmpl &&
      (match v with
       | some n => g.version == n
       | none => tmpl || g.is_active))

end graph_db

/-- Embedding of `do_create_graph` (routers/v1.py): builds the new graph from
an inline definition or from a template (raising HTTP 400 when the template
does not resolve, and HTTP 400 when neither is supplied), sets
`is_template := is_template` and `is_active := not is_template`, reassigns the
graph id to a fresh identifier (`reassign_ids(reassign_graph_id=True)`,
modelled by the caller-supplied `fresh_id`), persists via the store, and then
invokes `on_graph_activate` on the created graph — unconditionally, with no
guard on `is_active`. `ao` tells whether the activation hook succeeds. -/
def do_create_graph (store : List Graph) (graph? : Option Graph)
    (template_id : Option String) (template_version : Option Nat)
    (is_template : Bool) (fresh_id : String) (ao : String → Nat → Bool) :
    OpResult Graph :=
  let g0? : Except Err Graph :=
    match graph? with
    | some g => Except.ok g
    | none =>
      match template_id with
      | some tid =>
        match graph_db.get_graph store tid template_version true with
        | none => Except.error (Err.http 400)
        | some g => Except.ok { g with version := 1 }
      | none => Except.error (Err.http 400)
  match g0? with
  | Except.error e => ⟨Except.error e, store, []⟩
  | Except.ok g0 =>
    let g1 : Graph :=
      { g0 with is_template := is_template, is_active := !is_template,
                id := fresh_id }
    let created := graph_db.create_graph store g1
    if ao created.2.id created.2.version then
      ⟨Except.ok created.2, created.1,
        [Event.activate created.2.id created.2.version]⟩
    else
      ⟨Except.error Err.activationFailed, created.1,
        [Event.activate created.2.id created.2.version]⟩

/-- Embedding of `update_graph` (routers/v1.py): sanity-checks the body id
against the path id, loads all versions (404 when none), allocates
`max version + 1`, rejects an `is_template` change with HTTP 400, sets
`is_active := not is_template`, persists the new version, and — only when the
new version is active — invokes `on_graph_activate` on it, then the store
set-active update, then `on_graph_deactivate` on the previously active
version when one exists. The unreachable branch where the latest version
number is not found among the versions is modelled as HTTP 500 (in Python a
`StopIteration` would escape `next`). -/
def update_graph (store : List Graph) (graph_id : String) (graph : Graph)
    (ao : String → Nat → Bool) : OpResult Graph :=
  if graph.id != "" && graph.id != graph_id then
    ⟨Except.error (Err.http 400), store, []⟩
  else
    let existing_versions := graph_db.get_graph_all_versions store graph_id
    if existing_versions.isEmpty then
      ⟨Except.error (Err.http 404), store, []⟩
    else
      let latest_version_number :=
        existing_versions.foldl (fun m g => max m g.version) 0
      match existing_versions.find?
          (fun v => v.version == latest_version_number) with
      | none => ⟨Except.error (Err.http 500), store, []⟩
      | some latest_version_graph =>
        let current_active_version :=
          existing_versions.find? (fun v => v.is_active)
        if latest_version_graph.is_template != graph.is_template then
          ⟨Except.error (Err.http 400), store, []⟩
        else
          let g2 : Graph :=
            { graph with version := latest_version_number + 1,
                         is_active := !graph.is_template, id := graph_id }
          let created := graph_db.create_graph store g2
          if created.2.is_active then
            if ao graph_id created.2.version then
              let store2 := graph_db.set_graph_active_version created.1
                graph_id created.2.version
              match current_active_version with
              | some cur =>
                ⟨Except.ok created.2, store2,
                  [Event.activate graph_id created.2.version,
                   Event.setActive graph_id created.2.version,
                   Event.deactivate graph_id cur.version]⟩
              | none =>
                ⟨Except.ok created.2, store2,
                  [Event.activate graph_id created.2.version,
                   Event.setActive graph_id created.2.version]⟩
            else
              ⟨Except.error Err.activationFailed, created.1,
                [Event.activate graph_id created.2.version]⟩
          else
            ⟨Except.ok created.2, created.1, []⟩

/-- Embedding of `set_graph_active_version` (routers/v1.py): loads the target
version (404 when absent) and the currently active version, invokes
`on_graph_activate` on the target, then the store set-active update (the
compare-and-swap; `casOk` decides whether it succeeds, and on failure the
`ConflictError` propagates with no further action — the source has no
try/except around it), then `on_graph_deactivate` on the previously active
version when it exists and differs from the target. -/
def set_graph_active_version (store : List Graph) (graph_id : String)
    (new_active_version : Nat) (ao : String → Nat → Bool) (casOk : Bool) :
    OpResult Unit :=
  match graph_db.get_graph store graph_id (some new_active_version) false with
  | none => ⟨Except.error (Err.http 404), store, []⟩
  | some new_active_graph =>
    let current_active_graph :=
      graph_db.get_graph store graph_id none false
    if ao graph_id new_active_graph.version then
      if casOk then
        let store2 := graph_db.set_graph_active_version store graph_id
          new_active_version
        match current_active_graph with
        | some cur =>
          if cur.version != new_active_version then
            ⟨Except.ok (), store2,
              [Event.activate graph_id new_active_graph.version,
               Event.setActive graph_id new_active_version,
               Event.deactivate graph_id cur.version]⟩
          else
            ⟨Except.ok (), store2,
              [Event.activate graph_id new_active_graph.version,
               Event.setActive graph_id new_active_version]⟩
        | none =>
          ⟨Except.ok (), store2,
            [Event.activate graph_id new_active_graph.version,
             Event.setActive graph_id new_active_version]⟩
      else
        ⟨Except.error Err.conflict, store,
          [Event.activate graph_id new_active_graph.version]⟩
    else
      ⟨Except.error Err.activationFailed, store,
        [Event.activate graph_id new_active_graph.version]⟩

/-- Number of persisted versions of `gid` that carry `is_active = true`. -/
def activeCount (store : List Graph) (gid : String) : Nat :=
  store.countP (fun g => g.id == gid && g.is_active)

/-- Number of persisted documents with graph id `gid` and version `v`. -/
def versionCount (store : List Graph) (gid : String) (v : Nat) : Nat :=
  store.countP (fun g => g.id == gid && g.version == v)

/-- Store well-formedness: versions are unique per graph id, and at most one
version of each graph id is active. -/
def Inv (s : List Graph) : Prop :=
  (∀ gid v, versionCount s gid v ≤ 1) ∧ (∀ gid, activeCount s gid ≤ 1)

lemma countP_map_congr {α : Type} (f : α → α) (p q : α → Bool) (l : List α)
    (h : ∀ a, p (f a) = q a) : (l.map f).countP p = l.countP q := by
  induction l with
  | nil => rfl
  | cons hd tl ih =>
    rw [List.map_cons, List.countP_cons, List.countP_cons, ih, h]

lemma activeCount_setActive_self (s : List Graph) (gid : String) (v : Nat) :
    activeCount (graph_db.set_graph_active_version s gid v) gid =
      versionCount s gid v := by
  unfold activeCount versionCount graph_db.set_graph_active_version
  refine countP_map_congr _ _ _ _ ?_
  intro a
  by_cases h : a.id = gid
  · simp [h]
  · simp [h, beq_eq_false_iff_ne.mpr h]

lemma activeCount_setActive_other (s : List Graph) (gid gid' : String)
    (v : Nat) (hne : gid' ≠ gid) :
    activeCount (graph_db.set_graph_active_version s gid v) gid' =
      activeCount s gid' := by
  unfold activeCount graph_db.set_graph_active_version
  refine countP_map_congr _ _ _ _ ?_
  intro a
  by_cases h : a.id = gid
  · simp [h, beq_eq_false_iff_ne.mpr (Ne.symm hne)]
  · simp [h]

lemma versionCount_setActive (s : List Graph) (gid gid' : String)
    (v v' : Nat) :
    versionCount (graph_db.set_graph_active_version s gid v) gid' v' =
      versionCount s gid' v' := by
  unfold versionCount graph_db.set_graph_active_version
  refine countP_map_congr _ _ _ _ ?_
  intro a
  by_cases h : a.id = gid <;> simp [h]

lemma activeCount_append_one (s : List Graph) (g : Graph) (gid : String) :
    activeCount (s ++ [g]) gid =
      activeCount s gid + (if g.id = gid ∧ g.is_active then 1 else 0) := by
  simp only [activeCount, List.countP_append, List.countP_cons,
    List.countP_nil]
  by_cases h : g.id = gid ∧ g.is_active = true
  · simp [h.1, h.2]
  · rw [Decidable.not_and_iff_or_not] at h
    rcases h with h | h <;> simp [h]

lemma versionCount_append_one (s : List Graph) (g : Graph) (gid : String)
    (v : Nat) :
    versionCount (s ++ [g]) gid v =
      versionCount s gid v + (if g.id = gid ∧ g.version = v then 1 else 0) := by
  simp only [versionCount, List.countP_append, List.countP_cons,
    List.countP_nil]
  by_cases h : g.id = gid ∧ g.version = v
  · simp [h.1, h.2]
  · rw [Decidable.not_and_iff_or_not] at h
    rcases h with h | h <;> simp [h]

lemma activeCount_of_fresh (s : List Graph) (fid : String)
    (hfresh : ∀ g ∈ s, g.id ≠ fid) : activeCount s fid = 0 := by
  simp only [activeCount, List.countP_eq_zero]
  intro g hg
  simp [hfresh g hg]

lemma versionCount_of_fresh (s : List Graph) (fid : String) (v : Nat)
    (hfresh : ∀ g ∈ s, g.id ≠ fid) : versionCount s fid v = 0 := by
  simp only [versionCount, List.countP_eq_zero]
  intro g hg
  simp [hfresh g hg]

lemma foldl_max_init_le (l : List Graph) (a : Nat) :
    a ≤ l.foldl (fun m g => max m g.version) a := by
  induction l generalizing a with
  | nil => exact Nat.le_refl a
  | cons hd tl ih =>
    exact Nat.le_trans (Nat.le_max_left a hd.version) (ih (max a hd.version))

lemma version_le_foldl_max (l : List Graph) (a : Nat) :
    ∀ g ∈ l, g.version ≤ l.foldl (fun m g => max m g.version) a := by
  induction l generalizing a with
  | nil => intro g hg; cases hg
  | cons hd tl ih =>
    intro g hg
    rcases List.mem_cons.mp hg with rfl | hg'
    · exact Nat.le_trans (Nat.le_max_right a g.version)
        (foldl_max_init_le tl (max a g.version))
    · exact ih (max a hd.version) g hg'

/-- The freshly allocated version number `max + 1` does not occur among the
persisted versions of `gid`. -/
lemma versionCount_latest_succ (s : List Graph) (gid : String) :
    versionCount s gid
      ((graph_db.get_graph_all_versions s gid).foldl
        (fun m g => max m g.version) 0 + 1) = 0 := by
  simp only [versionCount, List.countP_eq_zero]
  intro g hg hmem
  simp only [Bool.and_eq_true, beq_iff_eq] at hmem
  have hfilter : g ∈ graph_db.get_graph_all_versions s gid := by
    simp [graph_db.get_graph_all_versions, List.mem_filter, hg, hmem.1]
  have hle := version_le_foldl_max (graph_db.get_graph_all_versions s gid) 0
    g hfilter
  omega

/-- Appending a document whose graph id is fresh preserves well-formedness. -/
lemma inv_append_fresh (s : List Graph) (g2 : Graph) (h : Inv s)
    (hfresh : ∀ g ∈ s, g.id ≠ g2.id) : Inv (s ++ [g2]) := by
  constructor
  · intro gid v
    rw [versionCount_append_one]
    by_cases hid : g2.id = gid
    · subst hid
      rw [versionCount_of_fresh s g2.id v hfresh]
      split <;> omega
    · rw [if_neg (fun hc => hid hc.1)]
      have := h.1 gid v
      omega
  · intro gid
    rw [activeCount_append_one]
    by_cases hid : g2.id = gid
    · subst hid
      rw [activeCount_of_fresh s g2.id hfresh]
      split <;> omega
    · rw [if_neg (fun hc => hid hc.1)]
      have := h.2 gid
      omega

/-- Appending an inactive document with a fresh version number preserves
well-formedness. -/
lemma inv_append_inactive (s : List Graph) (g2 : Graph) (h : Inv s)
    (hver : versionCount s g2.id g2.version = 0)
    (hina : g2.is_active = false) : Inv (s ++ [g2]) := by
  constructor
  · intro gid v
    rw [versionCount_append_one]
    by_cases hcase : g2.id = gid ∧ g2.version = v
    · rcases hcase with ⟨rfl, rfl⟩
      rw [hver]
      simp
    · simp only [hcase, if_false]
      have := h.1 gid v
      omega
  · intro gid
    rw [activeCount_append_one]
    have : (if g2.id = gid ∧ g2.is_active then 1 else 0) = 0 := by
      simp [hina]
    rw [this]
    have := h.2 gid
    omega

/-- Appending a document of `gid` with a fresh version number and then
running the store set-active update for that version preserves
well-formedness (this is the successful `update_graph` activation path). -/
lemma inv_append_setActive (s : List Graph) (gid : String) (g2 : Graph)
    (h : Inv s) (hid : g2.id = gid)
    (hver : versionCount s gid g2.version = 0) :
    Inv (graph_db.set_graph_active_version (s ++ [g2]) gid g2.version) := by
  constructor
  · intro gid' v'
    rw [versionCount_setActive, versionCount_append_one]
    by_cases hcase : g2.id = gid' ∧ g2.version = v'
    · obtain ⟨h1, h2⟩ := hcase
      have hg : gid' = gid := h1.symm.trans hid
      subst hg
      subst h2
      rw [hver, if_pos ⟨h1, rfl⟩]
    · rw [if_neg hcase]
      have := h.1 gid' v'
      omega
  · intro gid'
    by_cases hg : gid' = gid
    · subst hg
      rw [activeCount_setActive_self, versionCount_append_one, hver,
        if_pos ⟨hid, rfl⟩]

    · rw [activeCount_setActive_other _ _ _ _ hg, activeCount_append_one,
        if_neg (fun hc => hg (hc.1.symm.trans hid))]
      have := h.2 gid'
      omega

/-- Running the store set-active update alone preserves well-formedness. -/
lemma inv_setActive (s : List Graph) (gid : String) (v : Nat) (h : Inv s) :
    Inv (graph_db.set_graph_active_version s gid v) := by
  constructor
  · intro gid' v'
    rw [versionCount_setActive]
    exact h.1 gid' v'
  · intro gid'
    by_cases hg : gid' = gid
    · subst hg
      rw [activeCount_setActive_self]
      exact h.1 gid' v
    · rw [activeCount_setActive_other _ _ _ _ hg]
      exact h.2 gid'

/-- `do_create_graph` preserves store well-formedness whenever the reassigned
graph id is fresh (this needs no success hypothesis: even the
activation-failure branch only appends the fresh-id document). -/
lemma inv_create (s : List Graph) (graph? : Option Graph)
    (tid : Option String) (tv : Option Nat) (it : Bool) (fid : String)
    (ao : String → Nat → Bool) (h : Inv s) (hfresh : ∀ g ∈ s, g.id ≠ fid) :
    Inv (do_create_graph s graph? tid tv it fid ao).store := by
  simp only [do_create_graph, graph_db.create_graph]
  split
  · exact h
  · split
    · exact inv_append_fresh s _ h hfresh
    · exact inv_append_fresh s _ h hfresh

/-- `set_graph_active_version` preserves store well-formedness
unconditionally. -/
lemma inv_set (s : List Graph) (gid : String) (v : Nat)
    (ao : String → Nat → Bool) (casOk : Bool) (h : Inv s) :
    Inv (set_graph_active_version s gid v ao casOk).store := by
  simp only [set_graph_active_version]
  split
  · exact h
  · split
    · split
      · split
        · split
          · exact inv_setActive s gid v h
          · exact inv_setActive s gid v h
        · exact inv_setActive s gid v h
      · exact h
    · exact h

/-- `update_graph` preserves store well-formedness whenever it succeeds (a
failed activation hook may leave both the old and the new version flagged
active, which is why success is required here). -/
lemma inv_update (s : List Graph) (gid : String) (g : Graph)
    (ao : String → Nat → Bool) (h : Inv s)
    (hok : resultOk (update_graph s gid g ao).result = true) :
    Inv (update_graph s gid g ao).store := by
  revert hok
  simp only [update_graph, graph_db.create_graph]
  split
  · intro hok; simp [resultOk] at hok
  · split
    · intro hok; simp [resultOk] at hok
    · split
      · intro hok; simp [resultOk] at hok
      · split
        · intro hok; simp [resultOk] at hok
        · split
          · split
            · split
              · intro _
                exact inv_append_setActive s gid
                  ⟨gid, _, g.is_template, !g.is_template⟩ h rfl
                  (versionCount_latest_succ s gid)
              · intro _
                exact inv_append_setActive s gid
                  ⟨gid, _, g.is_template, !g.is_template⟩ h rfl
                  (versionCount_latest_succ s gid)
            · intro hok; simp [resultOk] at hok
          · rename_i hact
            intro _
            refine inv_append_inactive s
              ⟨gid, _, g.is_template, !g.is_template⟩ h
              (versionCount_latest_succ s gid) ?_
            simpa using hact

/-- Stores reachable from the empty store by sequences of successful route
operations (`do_create_graph`, `update_graph`, `set_graph_active_version`).
The `create` step carries the freshness of the reassigned graph id:
`reassign_ids(reassign_graph_id=True)` draws a fresh identifier not used by
any persisted document. -/
inductive Reachable : List Graph → Prop where
  | nil : Reachable []
  | create (s : List Graph) (graph? : Option Graph) (tid : Option String)
      (tv : Option Nat) (it : Bool) (fid : String)
      (ao : String → Nat → Bool) (h : Reachable s)
      (hfresh : ∀ g ∈ s, g.id ≠ fid)
      (hok : resultOk (do_create_graph s graph? tid tv it fid ao).result
              = true) :
      Reachable (do_create_graph s graph? tid tv it fid ao).store
  | update (s : List Graph) (gid : String) (g : Graph)
      (ao : String → Nat → Bool) (h : Reachable s)
      (hok : resultOk (update_graph s gid g ao).result = true) :
      Reachable (update_graph s gid g ao).store
  | set (s : List Graph) (gid : String) (v : Nat)
      (ao : String → Nat → Bool) (casOk : Bool) (h : Reachable s)
      (hok : resultOk (set_graph_active_version s gid v ao casOk).result
              = true) :
      Reachable (set_graph_active_version s gid v ao casOk).store

lemma reachable_inv (s : List Graph) (h : Reachable s) : Inv s := by
  induction h with
  | nil => exact ⟨fun _ _ => by simp [versionCount], fun _ => by
      simp [activeCount]⟩
  | create s graph? tid tv it fid ao _ hfresh _ ih =>
    exact inv_create s graph? tid tv it fid ao ih hfresh
  | update s gid g ao _ hok ih => exact inv_update s gid g ao ih hok
  | set s gid v ao casOk _ _ ih => exact inv_set s gid v ao casOk ih

/-- C1: along every sequence of successful `create`/`update`/
`set_active_version` operations, every graph id has at most one version with
`is_active = true` in the store observed between completed operations. -/
theorem c1_at_most_one_active (s : List Graph) (h : Reachable s)
    (gid : String) : activeCount s gid ≤ 1 :=
  (reachable_inv s h).2 gid

/-- Activation-hook oracle that always succeeds. -/
def aoT : String → Nat → Bool := fun _ _ => true

/-- An inline graph definition submitted by a client. -/
def gIn : Graph := ⟨"", 0, false, false⟩

/-- Store after creating a graph under fresh id `g1` and then updating it:
the concrete run used to instantiate the C1 invariant. -/
def s2c1 : List Graph :=
  (update_graph (do_create_graph [] (some gIn) none none false "g1" aoT).store
    "g1" gIn aoT).store

theorem c1_at_most_one_active_witness : activeCount s2c1 "g1" ≤ 1 := by
  refine c1_at_most_one_active s2c1 ?_ "g1"
  refine Reachable.update _ "g1" gIn aoT ?_ (by decide)
  have h0 : Reachable
      ((do_create_graph [] (some gIn) none none false "g1" aoT).store) :=
    Reachable.create [] (some gIn) none none false "g1" aoT Reachable.nil
      (by intro g hg; cases hg) (by decide)
  exact h0

/-- A two-version store for graph id `g1`: version 1 active, version 2
inactive. -/
def s0 : List Graph := [⟨"g1", 1, false, true⟩, ⟨"g1", 2, false, false⟩]

lemma mem_left_of_three_split (gid : String) (a sa dv w : Nat)
    (l r : List Event)
    (h : [Event.activate gid a, Event.setActive gid sa,
          Event.deactivate gid dv] = l ++ Event.deactivate gid w :: r) :
    Event.activate gid a ∈ l := by
  rcases l with _ | ⟨e1, _ | ⟨e2, _ | ⟨e3, l⟩⟩⟩
  · simp at h
  · simp at h
  · simp only [List.cons_append, List.nil_append, List.cons.injEq] at h
    simp [h.1]
  · simp at h

lemma no_deactivate_two_split (gid : String) (a sa w : Nat)
    (l r : List Event)
    (h : [Event.activate gid a, Event.setActive gid sa]
           = l ++ Event.deactivate gid w :: r) : False := by
  have hmem : Event.deactivate gid w ∈
      [Event.activate gid a, Event.setActive gid sa] := by
    rw [h]; simp
  simp at hmem

/-- C2: in every successful switch (via `set_graph_active_version` or via
`update_graph`), the activation hook for the new version is invoked — and,
the coordinator being sequential, completes — before the deactivation hook
for the previously active version begins: wherever the trace splits at a
deactivation event, an activation event for the new version lies in the
prefix. -/
theorem c2_activate_before_deactivate :
    (∀ (s : List Graph) (gid : String) (v : Nat) (ao : String → Nat → Bool)
       (casOk : Bool) (l r : List Event) (w : Nat),
       resultOk (set_graph_active_version s gid v ao casOk).result = true →
       (set_graph_active_version s gid v ao casOk).trace =
         l ++ Event.deactivate gid w :: r →
       Event.activate gid v ∈ l)
  ∧ (∀ (s : List Graph) (gid : String) (g : Graph)
       (ao : String → Nat → Bool) (b : Graph) (l r : List Event) (w : Nat),
       (update_graph s gid g ao).result = Except.ok b →
       (update_graph s gid g ao).trace = l ++ Event.deactivate gid w :: r →
       Event.activate gid b.version ∈ l) := by
  constructor
  · intro s gid v ao casOk l r w hok htr
    rcases hget : graph_db.get_graph s gid (some v) false with _ | nag
    · simp [set_graph_active_version, hget, resultOk] at hok
    · have hv : nag.version = v := by
        have hp := List.find?_some hget
        simp only [Bool.and_eq_true, beq_iff_eq] at hp
        exact hp.2
      revert hok htr
      simp only [set_graph_active_version, hget, hv]
      split
      · split
        · split
          · split
            · intro _ htr
              exact mem_left_of_three_split gid v _ _ w l r htr
            · intro _ htr
              exact (no_deactivate_two_split gid v _ w l r htr).elim
          · intro _ htr
            exact (no_deactivate_two_split gid v _ w l r htr).elim
        · intro hok _
          simp [resultOk] at hok
      · intro hok _
        simp [resultOk] at hok
  · intro s gid g ao b l r w hres htr
    revert hres htr
    simp only [update_graph, graph_db.create_graph]
    split
    · intro hres _; simp at hres
    · split
      · intro hres _; simp at hres
      · split
        · intro hres _; simp at hres
        · split
          · intro hres _; simp at hres
          · split
            · split
              · split
                · intro hres htr
                  simp only [Except.ok.injEq] at hres
                  subst hres
                  exact mem_left_of_three_split gid _ _ _ w l r htr
                · intro _ htr
                  exact (no_deactivate_two_split gid _ _ w l r htr).elim
              · intro hres _; simp at hres
            · intro _ htr
              simp at htr

/-- The run instantiating C2 on concrete inputs: switching `g1` to version 2
and updating `g1` to version 3, the activation event for the new version
precedes the deactivation event in both traces. -/
theorem c2_activate_before_deactivate_witness :
    Event.activate "g1" 2 ∈ [Event.activate "g1" 2, Event.setActive "g1" 2]
    ∧ Event.activate "g1" 3 ∈
        [Event.activate "g1" 3, Event.setActive "g1" 3] := by
  constructor
  · exact c2_activate_before_deactivate.1 s0 "g1" 2 aoT true
      [Event.activate "g1" 2, Event.setActive "g1" 2] [] 1
      (by decide) (by decide)
  · exact c2_activate_before_deactivate.2 s0 "g1" gIn aoT
      ⟨"g1", 3, false, true⟩
      [Event.activate "g1" 3, Event.setActive "g1" 3] [] 1
      rfl (by decide)

/-- C3 fails on the code: with version 1 of `g1` active, a successful
activation of version 2 followed by a failing store compare-and-swap
surfaces `ConflictError` with zero deactivation-hook invocations on version
2 — the route has no rollback, while the claim demands exactly one. -/
theorem c3_no_rollback_counterexample :
    (set_graph_active_version s0 "g1" 2 aoT false).result =
      Except.error Err.conflict ∧
    (set_graph_active_version s0 "g1" 2 aoT false).trace.count
      (Event.deactivate "g1" 2) = 0 := by
  refine ⟨rfl, ?_⟩
  decide

/-- C3 amended: when the activation hook succeeded and the store
compare-and-swap then fails, `set_graph_active_version` surfaces the
`ConflictError` directly: the store is left unchanged and no deactivation
hook is invoked at all — in particular not on the new version. -/
theorem c3_conflict_surfaced_without_rollback (s : List Graph)
    (gid : String) (v : Nat) (ao : String → Nat → Bool) (nag : Graph)
    (hget : graph_db.get_graph s gid (some v) false = some nag)
    (hao : ao gid nag.version = true) :
    (set_graph_active_version s gid v ao false).result =
      Except.error Err.conflict ∧
    (set_graph_active_version s gid v ao false).store = s ∧
    ∀ w, Event.deactivate gid w ∉
      (set_graph_active_version s gid v ao false).trace := by
  simp [set_graph_active_version, hget, hao]

theorem c3_conflict_surfaced_without_rollback_witness :
    (set_graph_active_version s0 "g1" 2 aoT false).result =
      Except.error Err.conflict ∧
    (set_graph_active_version s0 "g1" 2 aoT false).store = s0 ∧
    ∀ w, Event.deactivate "g1" w ∉
      (set_graph_active_version s0 "g1" 2 aoT false).trace :=
  c3_conflict_surfaced_without_rollback s0 "g1" 2 aoT
    ⟨"g1", 2, false, false⟩ (by decide) (by decide)

/-- Activation-hook oracle that always fails. -/
def aoF : String → Nat → Bool := fun _ _ => false

/-- C4: if the activation hook for the target version fails,
`set_graph_active_version` aborts with the `ActivationError`: the store is
unchanged, the previously active version A is still resolved as the active
one, and no deactivation hook is invoked. -/
theorem c4_activation_failure_aborts (s : List Graph) (gid : String)
    (v : Nat) (ao : String → Nat → Bool) (casOk : Bool) (nag A : Graph)
    (hget : graph_db.get_graph s gid (some v) false = some nag)
    (hcur : graph_db.get_graph s gid none false = some A)
    (hao : ao gid nag.version = false) :
    (set_graph_active_version s gid v ao casOk).result =
      Except.error Err.activationFailed ∧
    (set_graph_active_version s gid v ao casOk).store = s ∧
    graph_db.get_graph (set_graph_active_version s gid v ao casOk).store
      gid none false = some A ∧
    ∀ w, Event.deactivate gid w ∉
      (set_graph_active_version s gid v ao casOk).trace := by
  simp [set_graph_active_version, hget, hao, hcur]

theorem c4_activation_failure_aborts_witness :
    (set_graph_active_version s0 "g1" 2 aoF true).result =
      Except.error Err.activationFailed ∧
    (set_graph_active_version s0 "g1" 2 aoF true).store = s0 ∧
    graph_db.get_graph (set_graph_active_version s0 "g1" 2 aoF true).store
      "g1" none false = some ⟨"g1", 1, false, true⟩ ∧
    ∀ w, Event.deactivate "g1" w ∉
      (set_graph_active_version s0 "g1" 2 aoF true).trace :=
  c4_activation_failure_aborts s0 "g1" 2 aoF true ⟨"g1", 2, false, false⟩
    ⟨"g1", 1, false, true⟩ (by decide) (by decide) (by decide)

/-- C5 fails on the code: setting `g1` active to version 1 while version 1
is already active returns successfully but still invokes the activation
hook on version 1 — the claim demands that neither hook be invoked. -/
theorem c5_idempotent_counterexample :
    (set_graph_active_version s0 "g1" 1 aoT true).result = Except.ok () ∧
    (set_graph_active_version s0 "g1" 1 aoT true).trace.count
      (Event.activate "g1" 1) = 1 := by
  refine ⟨rfl, ?_⟩
  decide

/-- C5 amended: when the target version is already the active version, the
call returns successfully and invokes no deactivation hook, but it is not a
no-op: the activation hook is invoked once more on the already-active
version and the store set-active update still runs. -/
theorem c5_already_active_invokes_activation (s : List Graph)
    (gid : String) (v : Nat) (ao : String → Nat → Bool) (nag cur : Graph)
    (hget : graph_db.get_graph s gid (some v) false = some nag)
    (hcur : graph_db.get_graph s gid none false = some cur)
    (hsame : cur.version = v) (hao : ao gid nag.version = true) :
    (set_graph_active_version s gid v ao true).result = Except.ok () ∧
    (set_graph_active_version s gid v ao true).trace =
      [Event.activate gid nag.version, Event.setActive gid v] := by
  simp [set_graph_active_version, hget, hcur, hao, hsame]

theorem c5_already_active_invokes_activation_witness :
    (set_graph_active_version s0 "g1" 1 aoT true).result = Except.ok () ∧
    (set_graph_active_version s0 "g1" 1 aoT true).trace =
      [Event.activate "g1" 1, Event.setActive "g1" 1] :=
  c5_already_active_invokes_activation s0 "g1" 1 aoT ⟨"g1", 1, false, true⟩
    ⟨"g1", 1, false, true⟩ (by decide) (by decide) (by decide) (by decide)

/-- C6 fails on the code: creating a template produces an inactive graph
(`is_active = not is_template` does hold) yet still invokes the activation
hook once — `do_create_graph` calls `on_graph_activate` with no guard on
`is_active`, so a template creation is not hook-free. -/
theorem c6_template_creation_counterexample :
    (do_create_graph [] (some gIn) none none true "t1" aoT).result =
      Except.ok ⟨"t1", 0, true, false⟩ ∧
    (do_create_graph [] (some gIn) none none true "t1" aoT).trace.count
      (Event.activate "t1" 0) = 1 := by
  refine ⟨rfl, ?_⟩
  decide

/-- C6 amended: every successful create returns a graph with
`is_active = not is_template` and `is_template` as requested, and the
activation hook is invoked — unconditionally, once, even for templates — on
the created graph. -/
theorem c6_create_sets_active_and_always_hooks (s : List Graph)
    (graph? : Option Graph) (tid : Option String) (tv : Option Nat)
    (it : Bool) (fid : String) (ao : String → Nat → Bool) (b : Graph)
    (hres : (do_create_graph s graph? tid tv it fid ao).result =
      Except.ok b) :
    b.is_active = !it ∧ b.is_template = it ∧
    (do_create_graph s graph? tid tv it fid ao).trace =
      [Event.activate fid b.version] := by
  revert hres
  simp only [do_create_graph, graph_db.create_graph]
  split
  · intro hres; simp at hres
  · split
    · intro hres
      simp only [Except.ok.injEq] at hres
      subst hres
      exact ⟨rfl, rfl, rfl⟩
    · intro hres; simp at hres

theorem c6_create_sets_active_and_always_hooks_witness :
    (⟨"t1", 0, true, false⟩ : Graph).is_active = !true ∧
    (⟨"t1", 0, true, false⟩ : Graph).is_template = true ∧
    (do_create_graph [] (some gIn) none none true "t1" aoT).trace =
      [Event.activate "t1" 0] :=
  c6_create_sets_active_and_always_hooks [] (some gIn) none none true "t1"
    aoT ⟨"t1", 0, true, false⟩ rfl

/-- C7: an `update_graph` whose body flips `is_template` relative to the
latest existing version fails with HTTP 400 (validation error), performing
no store mutation and no hook invocation. -/
theorem c7_template_immutability (s : List Graph) (gid : String) (g : Graph)
    (ao : String → Nat → Bool) (L : Graph)
    (hsan : (g.id != "" && g.id != gid) = false)
    (hL : (graph_db.get_graph_all_versions s gid).find?
        (fun x => x.version ==
          (graph_db.get_graph_all_versions s gid).foldl
            (fun m y => max m y.version) 0) = some L)
    (hdiff : (L.is_template != g.is_template) = true) :
    update_graph s gid g ao = ⟨Except.error (Err.http 400), s, []⟩ := by
  have hne : (graph_db.get_graph_all_versions s gid).isEmpty = false := by
    cases hE : graph_db.get_graph_all_versions s gid
    · rw [hE] at hL; simp at hL
    · rfl
  simp [update_graph, hsan, hne, hL, hdiff]

theorem c7_template_immutability_witness :
    update_graph s0 "g1" ⟨"", 0, true, false⟩ aoT =
      ⟨Except.error (Err.http 400), s0, []⟩ :=
  c7_template_immutability s0 "g1" ⟨"", 0, true, false⟩ aoT
    ⟨"g1", 2, false, false⟩ (by decide) (by decide) (by decide)

/-- C8: every successful `update_graph` returns (and persists) exactly the
version number `max existing version + 1` — whatever the active flags of the
existing versions are — and an update of a graph id with no existing
versions fails with HTTP 404. -/
theorem c8_version_allocation :
    (∀ (s : List Graph) (gid : String) (g : Graph)
       (ao : String → Nat → Bool) (b : Graph),
       (update_graph s gid g ao).result = Except.ok b →
       b.version = (graph_db.get_graph_all_versions s gid).foldl
         (fun m y => max m y.version) 0 + 1)
  ∧ (∀ (s : List Graph) (gid : String) (g : Graph)
       (ao : String → Nat → Bool),
       (g.id != "" && g.id != gid) = false →
       graph_db.get_graph_all_versions s gid = [] →
       (update_graph s gid g ao).result = Except.error (Err.http 404)) := by
  constructor
  · intro s gid g ao b hres
    revert hres
    simp only [update_graph, graph_db.create_graph]
    split
    · intro hres; simp at hres
    · split
      · intro hres; simp at hres
      · split
        · intro hres; simp at hres
        · split
          · intro hres; simp at hres
          · split
            · split
              · split
                · intro hres
                  simp only [Except.ok.injEq] at hres
                  subst hres
                  rfl
                · intro hres
                  simp only [Except.ok.injEq] at hres
                  subst hres
                  rfl
              · intro hres; simp at hres
            · intro hres
              simp only [Except.ok.injEq] at hres
              subst hres
              rfl
  · intro s gid g ao hsan hnil
    simp [update_graph, hsan, hnil]

theorem c8_version_allocation_witness :
    (⟨"g1", 3, false, true⟩ : Graph).version =
      (graph_db.get_graph_all_versions s0 "g1").foldl
        (fun m y => max m y.version) 0 + 1 ∧
    (update_graph [] "g1" gIn aoT).result = Except.error (Err.http 404) :=
  ⟨c8_version_allocation.1 s0 "g1" gIn aoT ⟨"g1", 3, false, true⟩ rfl,
   c8_version_allocation.2 [] "g1" gIn aoT (by decide) rfl⟩

/-- C9: at the failing input — a create call whose `template_id` does not
resolve — the code raises HTTP 400 (the `raise HTTPException(400, detail=
"Template ... not found")` branch), not the HTTP 404 that `NotFoundError`
maps to everywhere else; a create call supplying neither a definition nor a
`template_id` raises HTTP 400 as the claim states. -/
theorem c9_template_miss_status :
    (do_create_graph [] none (some "tX") none false "f1" aoT).result =
      Except.error (Err.http 400) ∧
    (do_create_graph [] none none none false "f1" aoT).result =
      Except.error (Err.http 400) ∧
    Err.http 400 ≠ Err.http 404 := by
  refine ⟨rfl, rfl, ?_⟩
  decide

/-- C10: when the submitted graph document carries a non-empty id that
differs from the path's graph id, `update_graph` fails with HTTP 400
uniformly in the store — the check precedes every store read and write, the
store is returned unmodified and no hook runs. -/
theorem c10_id_mismatch_rejected (s : List Graph) (gid : String) (g : Graph)
    (ao : String → Nat → Bool) (h1 : g.id ≠ "") (h2 : g.id ≠ gid) :
    update_graph s gid g ao = ⟨Except.error (Err.http 400), s, []⟩ := by
  have hc : (g.id != "" && g.id != gid) = true := by
    simp [bne_iff_ne, h1, h2]
  simp [update_graph, hc]

theorem c10_id_mismatch_rejected_witness :
    update_graph s0 "g1" ⟨"other", 0, false, false⟩ aoT =
      ⟨Except.error (Err.http 400), s0, []⟩ :=
  c10_id_mismatch_rejected s0 "g1" ⟨"other", 0, false, false⟩ aoT
    (by decide) (by decide)

end AutoGPT
